import Mathlib

/-!
Verification of the natural-language specification of the simple-auth-api
repository against its source, `src/users/serializers.py`.

The serializer classes are embedded as Lean functions over explicit data.
Machine behavior of the surrounding framework (field defaults, per-field
`validate_<field>` hooks whose return value replaces the field value,
`ModelSerializer.update` writing every key of `validated_data` onto the
instance, `dict.pop`, Python `str(None) = "None"`, `re.match` semantics
where `$` also matches just before a single trailing newline) is embedded
directly where the source relies on it.

Code of the repository that is not under `src/` (the `models.py` model
methods and managers, the enum choices) is modelled from the spec; each
such definition carries a doc comment starting `Modelled from the spec:`.
-/

set_option autoImplicit false

namespace SimpleAuth

/-- Modelled from the spec: `AuthOtpTypeEnum` (`src/users/choices.py` is not
under `src/`). Spec §3: `authType` is an enum EMAIL | PHONE. -/
inductive AuthTypeE
  | email
  | phone
deriving DecidableEq, Repr

/-- Modelled from the spec: `LoginTypeEnum` (`src/users/choices.py` is not
under `src/`). Spec §4.3: the strategy selects `email` or `phoneNumber`,
and the choice values name the account fields used for the lookup
(`filter_kwargs = {login_type: attrs[login_type]}` in the source). -/
inductive LoginTypeE
  | email
  | phone_number
deriving DecidableEq, Repr

/-- Python `str(...)` applied to an optional string: `str(None) = "None"`.
Used by `SignupSerializer.validate` and `PasswordSerializer.validate`,
which compare `str(auth_otp.otp_register_code) == str(submitted)`. -/
def pyStrOfOpt : Option String → String
  | none => "None"
  | some s => s

/-! ### The phone-number pattern `^(010|070)-\d{3,4}-\d{4}$`

`re.match` anchors at the start; the final `$` matches at the end of the
string or just before a single trailing newline. `\d` is restricted here
to the ASCII digits `0`-`9`. -/

/-- Consume exactly `n` digits from the front, returning the rest. -/
def takeDigits : Nat → List Char → Option (List Char)
  | 0, cs => some cs
  | _ + 1, [] => none
  | n + 1, c :: cs => if c.isDigit then takeDigits n cs else none

/-- Python `$` anchor: end of input, or a single trailing newline. -/
def dollarAnchor : List Char → Bool
  | [] => true
  | [c] => c == '\n'
  | _ => false

/-- Match `\d{4}$` (the final group of the pattern). -/
def finalFourDigits (cs : List Char) : Bool :=
  match takeDigits 4 cs with
  | some rest => dollarAnchor rest
  | none => false

/-- Match `\d{3,4}-\d{4}$` (the middle and final groups). -/
def midGroups (cs : List Char) : Bool :=
  (match takeDigits 3 cs with
   | some ('-' :: rest) => finalFourDigits rest
   | _ => false)
  ||
  (match takeDigits 4 cs with
   | some ('-' :: rest) => finalFourDigits rest
   | _ => false)

/-- Match the whole pattern `^(010|070)-\d{3,4}-\d{4}$` on a char list. -/
def matchesNumberL : List Char → Bool
  | '0' :: a :: '0' :: '-' :: rest => (a == '1' || a == '7') && midGroups rest
  | _ => false

/-- `re.match(r'^(010|070)-\d{3,4}-\d{4}$', s)` succeeds. -/
def matchesNumber (s : String) : Bool :=
  matchesNumberL s.data

/-! ### Rendering `strftime('%Y-%m-%d %H:%M:%S')`

Timestamps are embedded as seconds since 1970-01-01 00:00:00. -/

/-- Convert a count of days since 1970-01-01 to a `(year, month, day)`
civil date (proleptic Gregorian calendar). -/
def civilFromDays (z0 : Nat) : Nat × Nat × Nat :=
  let z := z0 + 719468
  let era := z / 146097
  let doe := z % 146097
  let yoe := (doe - doe / 1460 + doe / 36524 - doe / 146096) / 365
  let y := yoe + era * 400
  let doy := doe - (365 * yoe + yoe / 4 - yoe / 100)
  let mp := (5 * doy + 2) / 153
  let d := doy - (153 * mp + 2) / 5 + 1
  let m := if mp < 10 then mp + 3 else mp - 9
  (if m ≤ 2 then y + 1 else y, m, d)

/-- Zero-pad to two digits. -/
def pad2 (n : Nat) : String :=
  if n < 10 then "0" ++ toString n else toString n

/-- Zero-pad to four digits (the `%Y` directive). -/
def pad4 (n : Nat) : String :=
  if n < 10 then "000" ++ toString n
  else if n < 100 then "00" ++ toString n
  else if n < 1000 then "0" ++ toString n
  else toString n

/-- `datetime.strftime('%Y-%m-%d %H:%M:%S')` on a timestamp in epoch
seconds. -/
def strftimeYmdHMS (t : Nat) : String :=
  let dt := civilFromDays (t / 86400)
  let secs := t % 86400
  pad4 dt.1 ++ "-" ++ pad2 dt.2.1 ++ "-" ++ pad2 dt.2.2 ++ " " ++
    pad2 (secs / 3600) ++ ":" ++ pad2 (secs % 3600 / 60) ++ ":" ++ pad2 (secs % 60)

/-! ### The `AuthOtp` record -/

/-- The `AuthOtp` model row as the serializers use it: `number`,
`otp_code` (the stored secret), `auth_type` (nullable after a verify
writes `None` back), `timestamp` (creation time, epoch seconds),
`otp_interval` (validity in seconds), `authenticated`,
`otp_register_code` (the consumed code, nullable), `verified_at`.
`pk` is the database primary key. -/
structure AuthOtp where
  pk : Nat
  number : String
  otp_code : String
  auth_type : Option AuthTypeE
  timestamp : Nat
  otp_interval : Nat
  authenticated : Bool
  otp_register_code : Option String
  verified_at : Option Nat
deriving DecidableEq, Repr

/-- One step of the latest-record fold: keep the record with the larger
creation timestamp, a later list element winning ties. -/
def latestStep (acc : Option AuthOtp) (r : AuthOtp) : Option AuthOtp :=
  match acc with
  | none => some r
  | some b => if b.timestamp ≤ r.timestamp then some r else some b

/-- Modelled from the spec: `AuthOtp.objects.filter(number=...).latest()`
(the model `Meta.get_latest_by` lives in `src/users/models.py`, which is
not under `src/`). Spec §9: "an explicit store method `latestFor(number)`
ordered by creation timestamp descending, returning the single most
recent record". -/
def latestFor (otps : List AuthOtp) (number : String) : Option AuthOtp :=
  (otps.filter (fun r => r.number == number)).foldl latestStep none

/-- Modelled from the spec: `AuthOtp.authenticate_code_by_otp_key`
(`src/users/models.py` is not under `src/`). Spec §4.1 delegates the
comparison of the submitted code against the record's stored secret to
this check, and §7 groups `InvalidCode` / `AlreadyConsumed` as one
failure: "code mismatch, or record already finalized" — so the check
fails both on a wrong code and on a record already finalized. -/
def authenticate_code_by_otp_key (r : AuthOtp) (code : String) : Bool :=
  !r.authenticated && code == r.otp_code

/-- Modelled from the spec: `AuthOtp.objects.create(**validated_data)`
record defaults (`src/users/models.py` is not under `src/`). Spec §4.1:
"creates a new OtpRecord with `authenticated=false`, `createdAt=now`",
with a freshly generated code and the configured validity interval. -/
def createAuthOtp (pk : Nat) (number : String) (auth_type : AuthTypeE)
    (now interval : Nat) (code : String) : AuthOtp :=
  { pk := pk
    number := number
    otp_code := code
    auth_type := some auth_type
    timestamp := now
    otp_interval := interval
    authenticated := false
    otp_register_code := none
    verified_at := none }

/-! ### `AuthOtpSendSMSSerializer` (requestCode) -/

/-- The one error `AuthOtpSendSMSSerializer` can raise:
`ValidationError({"detail": "invalid_number", ...})`. -/
inductive SendErr
  | invalidNumber
deriving DecidableEq, Repr

/-- `AuthOtpSendSMSSerializer.validate_number`: the input passes the
pattern and is returned (`regex.string` is the original input), or a
`ValidationError` with detail `invalid_number` is raised. -/
def send_validate_number (value : String) : Except SendErr String :=
  if matchesNumber value then Except.ok value
  else Except.error SendErr.invalidNumber

/-- Deserialized input of `AuthOtpSendSMSSerializer`: the `number` field
and the optional `auth_type` choice (field default `EMAIL`). -/
structure SendInput where
  number : String
  auth_type : Option AuthTypeE
deriving DecidableEq, Repr

/-- The `to_representation` output of `AuthOtpSendSMSSerializer`: the
base field dict is `{number, auth_type}`, `auth_type` is popped, and
`otp_code` and `expired_at` are added. -/
structure SendResponse where
  number : String
  otp_code : String
  expired_at : String
deriving DecidableEq, Repr

/-- `AuthOtpSendSMSSerializer` end to end: `validate_number`, then
`save` (which creates the record), then `to_representation`, where
`expired_dt = instance.timestamp + timedelta(0, instance.otp_interval)`.
`now`, `interval`, `code` and `pk` stand for the creation-time values
supplied by the store. -/
def sendSMS (inp : SendInput) (now interval : Nat) (code : String) (pk : Nat) :
    Except SendErr (AuthOtp × SendResponse) :=
  match send_validate_number inp.number with
  | Except.error e => Except.error e
  | Except.ok number =>
    let r := createAuthOtp pk number (inp.auth_type.getD AuthTypeE.email) now interval code
    Except.ok (r, { number := r.number
                    otp_code := r.otp_code
                    expired_at := strftimeYmdHMS (r.timestamp + r.otp_interval) })

/-! ### `AuthOtpVerifyCodeSerializer` (verifyCode) -/

/-- The failures of `AuthOtpVerifyCodeSerializer`: the `ValidationError`
details `invalid_number`, `invalid_auth_type`, `invalid_code`, plus the
uncaught Python `AttributeError` that `validate_auth_type` raises when
`self.instance` is `None` (it dereferences `self.instance.auth_type`
before `validate` can raise `invalid_number`). -/
inductive VerifyErr
  | invalidNumber
  | invalidAuthType
  | invalidCode
  | attributeError
deriving DecidableEq, Repr

/-- Deserialized input of `AuthOtpVerifyCodeSerializer`: fields
`number`, `otp_code`, optional `verified_at`, optional `auth_type`
(field default `EMAIL`). -/
structure VerifyInput where
  number : String
  otp_code : String
  verified_at : Option Nat
  auth_type : Option AuthTypeE
deriving DecidableEq, Repr

/-- The `validated_data` of `AuthOtpVerifyCodeSerializer` after field
and object validation. -/
structure VerifyValidated where
  number : String
  otp_code : String
  verified_at : Option Nat
  auth_type : Option AuthTypeE
deriving DecidableEq, Repr

/-- `AuthOtpVerifyCodeSerializer.validate_auth_type`: the field default
(`EMAIL`) is substituted for a missing value, the method asserts
`self.instance.auth_type == auth_type` (raising `invalid_auth_type` on
mismatch, and an `AttributeError` when `self.instance` is `None`), and
returns `None` — so the framework stores `None` as the field's
validated value. -/
def verify_validate_auth_type (inst : Option AuthOtp) (value : Option AuthTypeE) :
    Except VerifyErr (Option AuthTypeE) :=
  let v := value.getD AuthTypeE.email
  match inst with
  | none => Except.error VerifyErr.attributeError
  | some r =>
    if r.auth_type == some v then Except.ok none
    else Except.error VerifyErr.invalidAuthType

/-- Validation of `AuthOtpVerifyCodeSerializer`: the per-field
`validate_auth_type` hook, then `validate`, which raises
`invalid_number` when there is no instance. -/
def verify_run_validation (inst : Option AuthOtp) (inp : VerifyInput) :
    Except VerifyErr VerifyValidated :=
  match verify_validate_auth_type inst inp.auth_type with
  | Except.error e => Except.error e
  | Except.ok a =>
    match inst with
    | none => Except.error VerifyErr.invalidNumber
    | some _ =>
      Except.ok { number := inp.number
                  otp_code := inp.otp_code
                  verified_at := inp.verified_at
                  auth_type := a }

/-- `AuthOtpVerifyCodeSerializer.save`: pops `otp_code` from
`validated_data`, runs `authenticate_code_by_otp_key` (raising
`invalid_code` on failure), adds `otp_register_code` to
`validated_data`, and applies `self.update(self.instance,
self.validated_data)` — which writes every remaining key back onto the
record and persists it (`verified_at` only when it was supplied). -/
def verify_save (inst : AuthOtp) (vd : VerifyValidated) : Except VerifyErr AuthOtp :=
  if authenticate_code_by_otp_key inst vd.otp_code then
    Except.ok { inst with
      number := vd.number
      verified_at := match vd.verified_at with
        | some t => some t
        | none => inst.verified_at
      auth_type := vd.auth_type
      otp_register_code := some vd.otp_code }
  else Except.error VerifyErr.invalidCode

/-- `AuthOtpVerifyCodeSerializer` end to end: validation then `save`.
`inst` is the latest record for the number the view passed in as
`self.instance` (or `none` when no record exists). The returned record
is the updated `self.instance`; `save` itself returns `None` in the
source. -/
def verifyCode (inst : Option AuthOtp) (inp : VerifyInput) : Except VerifyErr AuthOtp :=
  match verify_run_validation inst inp with
  | Except.error e => Except.error e
  | Except.ok vd =>
    match inst with
    | none => Except.error VerifyErr.invalidNumber
    | some r => verify_save r vd

/-! ### The `User` model and `SignupSerializer` -/

/-- The `User` model row as the serializers use it. `password` stores
the hashed credential; `otp_register_code` and the nested `auth_otp`
relation are writable fields of `SignupSerializer`; `is_staff` and
`last_login` appear in `UserSerializer`; `last_login_datetime` and
`last_login_type` are written by `LoginSerializer`. -/
structure User where
  id : Nat
  email : String
  username : String
  nickname : String
  password : String
  phone_number : String
  otp_register_code : Option String
  auth_otp : Option AuthOtp
  is_staff : Bool
  last_login : Option Nat
  last_login_datetime : Option Nat
  last_login_type : Option LoginTypeE
deriving DecidableEq, Repr

/-- Deserialized input of `SignupSerializer` (its writable scalar
fields; the optional nested `auth_otp` input is not consulted by
`validate` or `save`). -/
structure SignupAttrs where
  email : String
  username : String
  nickname : String
  password : String
  phone_number : String
  otp_register_code : String
deriving DecidableEq, Repr

/-- The failures of `SignupSerializer`: the `ValidationError` detail
`invalid_auth_otp_data`, and a database integrity failure inside the
transaction. -/
inductive SignupErr
  | invalidAuthOtpData
  | integrityError
deriving DecidableEq, Repr

/-- `SignupSerializer.validate`: looks up the latest `AuthOtp` for the
submitted `phone_number`; asserts
`str(auth_otp.otp_register_code) == str(attrs["otp_register_code"])`
and `auth_otp.authenticated is False`; a missing record or a failed
assertion raises `invalid_auth_otp_data`. On success the matched record
is kept (`self.auth_otp`) for `save`. -/
def signup_validate (otps : List AuthOtp) (attrs : SignupAttrs) :
    Except SignupErr (SignupAttrs × AuthOtp) :=
  match latestFor otps attrs.phone_number with
  | none => Except.error SignupErr.invalidAuthOtpData
  | some r =>
    if pyStrOfOpt r.otp_register_code == attrs.otp_register_code
        && r.authenticated == false then
      Except.ok (attrs, r)
    else Except.error SignupErr.invalidAuthOtpData

/-- Both persistent stores together, for the operations that touch
both. -/
structure DB where
  otps : List AuthOtp
  users : List User
deriving DecidableEq, Repr

/-- Modelled from the spec:
`User.objects.create_authenticated_user_from_request(**validated_data)`
(`src/users/models.py` is not under `src/`). Spec §4.2: "creates the
Account with a securely hashed credential"; spec §3: `phoneNumber` is
unique, so creation fails on a duplicate phone number. -/
def create_authenticated_user_from_request (hash : String → String)
    (freshId : Nat) (users : List User) (attrs : SignupAttrs) :
    Except SignupErr (List User × User) :=
  if users.any (fun u => u.phone_number == attrs.phone_number) then
    Except.error SignupErr.integrityError
  else
    let u : User :=
      { id := freshId
        email := attrs.email
        username := attrs.username
        nickname := attrs.nickname
        password := hash attrs.password
        phone_number := attrs.phone_number
        otp_register_code := some attrs.otp_register_code
        auth_otp := none
        is_staff := false
        last_login := none
        last_login_datetime := none
        last_login_type := none }
    Except.ok (users ++ [u], u)

/-- `auth_otp.save()` after a field change: the stored row with the
instance's primary key is replaced by the instance. -/
def saveOtp (otps : List AuthOtp) (r : AuthOtp) : List AuthOtp :=
  otps.map (fun x => if x.pk == r.pk then r else x)

/-- `SignupSerializer.save`: inside `with transaction.atomic()`, creates
the user and flips `self.auth_otp.authenticated` to `True`, persisting
the record. Failure inside the block rolls the transaction back, so the
caller's database state is unchanged on error. -/
def signup_save (hash : String → String) (freshId : Nat) (db : DB)
    (attrs : SignupAttrs) (auth_otp : AuthOtp) : DB × Except SignupErr User :=
  match create_authenticated_user_from_request hash freshId db.users attrs with
  | Except.error e => (db, Except.error e)
  | Except.ok (users2, u) =>
    let flipped := { auth_otp with authenticated := true }
    ({ otps := saveOtp db.otps flipped, users := users2 }, Except.ok u)

/-- The signup operation end to end: `validate` then `save`. Always
returns the resulting database state; a rolled-back transaction leaves
it untouched. -/
def signup (hash : String → String) (freshId : Nat) (db : DB)
    (attrs : SignupAttrs) : DB × Except SignupErr User :=
  match signup_validate db.otps attrs with
  | Except.error e => (db, Except.error e)
  | Except.ok (attrs2, auth_otp) => signup_save hash freshId db attrs2 auth_otp

/-- A value in a serialized representation dict. -/
inductive ReprVal
  | vstr (v : String)
  | vnat (v : Nat)
  | voptStr (v : Option String)
  | vnested (v : Option AuthOtp)
deriving DecidableEq, Repr

/-- `SignupSerializer.to_representation`: the base dict holds every
declared field — `id`, `email`, `username`, `nickname`, `password`,
`phone_number`, `otp_register_code`, `auth_otp` (none of them is marked
write-only) — and then `otp_register_code` is popped. -/
def signup_to_representation (u : User) : List (String × ReprVal) :=
  ([("id", ReprVal.vnat u.id),
    ("email", ReprVal.vstr u.email),
    ("username", ReprVal.vstr u.username),
    ("nickname", ReprVal.vstr u.nickname),
    ("password", ReprVal.vstr u.password),
    ("phone_number", ReprVal.vstr u.phone_number),
    ("otp_register_code", ReprVal.voptStr u.otp_register_code),
    ("auth_otp", ReprVal.vnested u.auth_otp)]).filter
    (fun kv => kv.1 != "otp_register_code")

/-! ### `LoginSerializer` -/

/-- The `UserSerializer` projection:
`["id", "email", "username", "nickname", "phone_number", "is_staff",
"last_login"]`. -/
structure UserProjection where
  id : Nat
  email : String
  username : String
  nickname : String
  phone_number : String
  is_staff : Bool
  last_login : Option Nat
deriving DecidableEq, Repr

/-- `UserSerializer(user).data`. -/
def userProjection (u : User) : UserProjection :=
  { id := u.id
    email := u.email
    username := u.username
    nickname := u.nickname
    phone_number := u.phone_number
    is_staff := u.is_staff
    last_login := u.last_login }

/-- Deserialized input of `LoginSerializer`: `email`, `phone_number`,
`password`, and the optional `login_type` choice (field default
`EMAIL`). -/
structure LoginAttrs where
  email : String
  phone_number : String
  password : String
  login_type : Option LoginTypeE
deriving DecidableEq, Repr

/-- The failures of `LoginSerializer.validate`: the `ValidationError`
details `no_exist_user` and `wrong_password`, plus the uncaught
`MultipleObjectsReturned` that `User.objects.get` raises when more than
one account matches (only `DoesNotExist` is caught). -/
inductive LoginErr
  | noExistUser
  | wrongPassword
  | multipleObjectsReturned
deriving DecidableEq, Repr

/-- The success payload of `LoginSerializer.validate`: the account
projection and the token pair. -/
structure LoginResponse where
  user : UserProjection
  access : String
  refresh : String
deriving DecidableEq, Repr

/-- The account field a login strategy matches against
(`filter_kwargs = {login_type: attrs[login_type]}`). -/
def loginFieldOf (t : LoginTypeE) (u : User) : String :=
  match t with
  | LoginTypeE.email => u.email
  | LoginTypeE.phone_number => u.phone_number

/-- The submitted identifier a login strategy uses
(`attrs[login_type]`). -/
def loginIdentOf (t : LoginTypeE) (attrs : LoginAttrs) : String :=
  match t with
  | LoginTypeE.email => attrs.email
  | LoginTypeE.phone_number => attrs.phone_number

/-- `User.objects.get(Q(**filter_kwargs))` as a filter over the user
store. -/
def login_lookup (t : LoginTypeE) (users : List User) (attrs : LoginAttrs) :
    List User :=
  users.filter (fun u => loginFieldOf t u == loginIdentOf t attrs)

/-- `user.save(update_fields=["last_login_datetime", "last_login_type"])`
after the in-memory assignments: a partial update writing only those
two fields of the account row, `last_login_datetime := now` and
`last_login_type := default_login_type` (the field default, `EMAIL` —
not the strategy that was used). -/
def applyLoginStamp (users : List User) (u : User) (now : Nat) : List User :=
  users.map (fun v =>
    if v.id == u.id then
      { v with last_login_datetime := some now
               last_login_type := some LoginTypeE.email }
    else v)

/-- `LoginSerializer.validate`: resolves the strategy (submitted value
or the field default `EMAIL`), looks up exactly one matching account,
checks the password, obtains the token pair from the external issuer
(`check_password` and `issue_token` stand for the credential-verifier
and token-issuer collaborators), and — only when
`SIMPLE_JWT_UPDATE_LOGIN_SETTING` is enabled — stamps the login fields.
Returns the resulting user store and the response data. -/
def login_validate (check_password : String → String → Bool)
    (issue_token : User → String × String) (update_login_setting : Bool)
    (now : Nat) (users : List User) (attrs : LoginAttrs) :
    Except LoginErr (List User × LoginResponse) :=
  let login_type := attrs.login_type.getD LoginTypeE.email
  match login_lookup login_type users attrs with
  | [] => Except.error LoginErr.noExistUser
  | [u] =>
    if !check_password attrs.password u.password then
      Except.error LoginErr.wrongPassword
    else
      let pair := issue_token u
      let data : LoginResponse :=
        { user := userProjection u, access := pair.1, refresh := pair.2 }
      if update_login_setting then
        Except.ok (applyLoginStamp users u now, data)
      else Except.ok (users, data)
  | _ => Except.error LoginErr.multipleObjectsReturned

/-! ### `PasswordSerializer` (resetPassword) -/

/-- The failures of `PasswordSerializer.validate`: the
`ValidationError` details `invalid_number`, `invalid_auth_otp_data` and
`invalid_phone_number`, the uncaught Python `KeyError` (dict access to
a key the serializer never produces), and the uncaught
`MultipleObjectsReturned` from `User.objects.get`. -/
inductive PwErr
  | invalidNumber
  | invalidAuthOtpData
  | invalidPhoneNumber
  | keyError (k : String)
  | multipleObjectsReturned
deriving DecidableEq, Repr

/-- `PasswordSerializer.validate_number`: same pattern check and
`invalid_number` failure as `AuthOtpSendSMSSerializer.validate_number`. -/
def password_validate_number (value : String) : Except PwErr String :=
  if matchesNumber value then Except.ok value
  else Except.error PwErr.invalidNumber

/-- The `attrs` dict reaching `PasswordSerializer.validate`: the
serializer's writable fields are exactly `number` (after
`validate_number`), `otp_code` and `new_passwd`, so those are the only
keys the framework puts into `attrs`. -/
def password_to_internal_value (number otp_code new_passwd : String) :
    Except PwErr (List (String × String)) :=
  match password_validate_number number with
  | Except.error e => Except.error e
  | Except.ok n =>
    Except.ok [("number", n), ("otp_code", otp_code), ("new_passwd", new_passwd)]

/-- Python dict subscript `attrs[k]`: the value, or a `KeyError`. -/
def dictGet (attrs : List (String × String)) (k : String) : Except PwErr String :=
  match attrs.lookup k with
  | some v => Except.ok v
  | none => Except.error (PwErr.keyError k)

/-- `PasswordSerializer.validate`: looks up the latest `AuthOtp` for
`attrs["number"]` (a missing record raises `invalid_auth_otp_data` via
the caught `DoesNotExist`); then evaluates
`str(auth_otp.otp_register_code) == str(attrs["otp_register_code"])` —
the dict access happens first, and `KeyError` is not in the caught
exception tuple `(AuthOtp.DoesNotExist, AssertionError)`, so it
propagates; a failed assertion raises `invalid_auth_otp_data`; finally
requires an account with the phone number (`invalid_phone_number`
otherwise). -/
def password_validate (otps : List AuthOtp) (users : List User)
    (attrs : List (String × String)) : Except PwErr (List (String × String)) :=
  match dictGet attrs "number" with
  | Except.error e => Except.error e
  | Except.ok number =>
    match latestFor otps number with
    | none => Except.error PwErr.invalidAuthOtpData
    | some r =>
      match attrs.lookup "otp_register_code" with
      | none => Except.error (PwErr.keyError "otp_register_code")
      | some submitted =>
        if pyStrOfOpt r.otp_register_code == submitted
            && r.authenticated == false then
          match users.filter (fun u => u.phone_number == number) with
          | [] => Except.error PwErr.invalidPhoneNumber
          | [_] => Except.ok attrs
          | _ => Except.error PwErr.multipleObjectsReturned
        else Except.error PwErr.invalidAuthOtpData

/-- `PasswordSerializer` validation end to end: field validation
producing the `attrs` dict, then `validate`. -/
def password_run (otps : List AuthOtp) (users : List User)
    (number otp_code new_passwd : String) :
    Except PwErr (List (String × String)) :=
  match password_to_internal_value number otp_code new_passwd with
  | Except.error e => Except.error e
  | Except.ok attrs => password_validate otps users attrs

/-! ### Small auxiliary definitions for the statements -/

/-- Whether an `Except` value is a success. -/
def isOkE {ε α : Type} : Except ε α → Bool
  | Except.ok _ => true
  | Except.error _ => false

/-- A literal credential check (plaintext equality) standing in for the
credential-verifier collaborator in concrete login examples. -/
def eqPassword (p stored : String) : Bool := p == stored

/-- A fixed token pair standing in for the external token issuer in
concrete login examples. -/
def fixedTokenPair (_ : User) : String × String := ("acc", "ref")

/-! ### Shared lemmas about the latest-record lookup and stores -/

theorem latestStep_eq_some (acc : Option AuthOtp) (x r : AuthOtp)
    (h : latestStep acc x = some r) : acc = some r ∨ r = x := by
  unfold latestStep at h
  split at h
  · exact Or.inr (Option.some.inj h).symm
  · split at h
    · exact Or.inr (Option.some.inj h).symm
    · exact Or.inl h

theorem foldl_latestStep_mem (l : List AuthOtp) (acc : Option AuthOtp)
    (r : AuthOtp) (h : l.foldl latestStep acc = some r) :
    acc = some r ∨ r ∈ l := by
  induction l generalizing acc with
  | nil => exact Or.inl h
  | cons x xs ih =>
    rw [List.foldl_cons] at h
    rcases ih (latestStep acc x) h with h1 | h2
    · rcases latestStep_eq_some acc x r h1 with h3 | h4
      · exact Or.inl h3
      · subst h4
        exact Or.inr (List.mem_cons_self _ _)
    · exact Or.inr (List.mem_cons_of_mem x h2)

/-- A record returned by the latest-record lookup is a stored record
carrying the looked-up number. -/
theorem latestFor_mem_number (otps : List AuthOtp) (n : String) (r : AuthOtp)
    (h : latestFor otps n = some r) : r ∈ otps ∧ r.number = n := by
  unfold latestFor at h
  rcases foldl_latestStep_mem _ _ _ h with h1 | h2
  · exact absurd h1 (by simp)
  · have h3 := List.mem_filter.mp h2
    exact ⟨h3.1, by simpa using h3.2⟩

/-- What a successful `SignupSerializer.validate` tells us: the record
it keeps is the latest one for the submitted number, and the attrs pass
through unchanged. -/
theorem signup_validate_ok (otps : List AuthOtp) (attrs a2 : SignupAttrs)
    (r : AuthOtp) (h : signup_validate otps attrs = Except.ok (a2, r)) :
    latestFor otps attrs.phone_number = some r ∧ a2 = attrs := by
  unfold signup_validate at h
  split at h
  · exact absurd h (by simp)
  · rename_i r0 hl
    split at h
    · simp only [Except.ok.injEq, Prod.mk.injEq] at h
      exact ⟨h.2 ▸ hl, h.1.symm⟩
    · exact absurd h (by simp)

/-- The user list after a successful account creation is the old list
with the new account appended. -/
theorem create_user_ok (hash : String → String) (freshId : Nat)
    (users : List User) (attrs : SignupAttrs) (users2 : List User) (u : User)
    (h : create_authenticated_user_from_request hash freshId users attrs
      = Except.ok (users2, u)) : users2 = users ++ [u] := by
  unfold create_authenticated_user_from_request at h
  split at h
  · exact absurd h (by simp)
  · simp only [Except.ok.injEq, Prod.mk.injEq] at h
    rw [← h.1, h.2]

/-- Writing a record back over a stored row with its own primary key
leaves the written record in the store. -/
theorem mem_saveOtp_self (otps : List AuthOtp) (r x : AuthOtp)
    (hx : x ∈ otps) (hpk : x.pk = r.pk) : r ∈ saveOtp otps r := by
  unfold saveOtp
  refine List.mem_map.mpr ⟨x, hx, ?_⟩
  simp [hpk]

/-! ### Shared lemmas decomposing `verifyCode` -/

/-- A successful verification went through both validation and `save`
on an existing instance. -/
theorem verifyCode_ok_split (inst : Option AuthOtp) (inp : VerifyInput)
    (res : AuthOtp) (h : verifyCode inst inp = Except.ok res) :
    ∃ r vd, inst = some r ∧
      verify_run_validation inst inp = Except.ok vd ∧
      verify_save r vd = Except.ok res := by
  unfold verifyCode at h
  cases hv : verify_run_validation inst inp with
  | error e =>
    rw [hv] at h
    exact absurd h (by simp)
  | ok vd =>
    rw [hv] at h
    cases inst with
    | none => exact absurd h (by simp)
    | some r => exact ⟨r, vd, rfl, rfl, h⟩

/-- Successful validation always records `none` as the validated
`auth_type` (the hook returns `None`) and passes the submitted code
through. -/
theorem verify_run_validation_ok (inst : Option AuthOtp) (inp : VerifyInput)
    (vd : VerifyValidated) (h : verify_run_validation inst inp = Except.ok vd) :
    vd.auth_type = none ∧ vd.otp_code = inp.otp_code := by
  cases inst with
  | none => simp [verify_run_validation, verify_validate_auth_type] at h
  | some r =>
    by_cases ha : (r.auth_type == some (inp.auth_type.getD AuthTypeE.email)) = true
    · simp only [verify_run_validation, verify_validate_auth_type, ha, if_true] at h
      rw [← Except.ok.inj h]
      exact ⟨rfl, rfl⟩
    · simp [verify_run_validation, verify_validate_auth_type, ha] at h

/-- What a successful `save` writes: the code comparison passed, and
the updated record carries the validated `auth_type` and the submitted
code as `otp_register_code`, with `authenticated` untouched. -/
theorem verify_save_ok (r : AuthOtp) (vd : VerifyValidated) (res : AuthOtp)
    (h : verify_save r vd = Except.ok res) :
    authenticate_code_by_otp_key r vd.otp_code = true ∧
    res.auth_type = vd.auth_type ∧
    res.otp_register_code = some vd.otp_code ∧
    res.authenticated = r.authenticated := by
  unfold verify_save at h
  by_cases hc : authenticate_code_by_otp_key r vd.otp_code = true
  · rw [if_pos hc] at h
    simp only [Except.ok.injEq] at h
    rw [← h]
    exact ⟨hc, rfl, rfl, rfl⟩
  · rw [if_neg hc] at h
    exact absurd h (by simp)

/-! ### Claim C8 -/

/-- C8: every input number that fails the canonical pattern
`^(010|070)-\d{3,4}-\d{4}$` makes both `requestCode`'s number validation
(`AuthOtpSendSMSSerializer.validate_number`) and `resetPassword`'s
(`PasswordSerializer.validate_number`) fail with the `invalid_number`
detail (`InvalidNumberFormat`) — the single error kind either validator
can produce. -/
theorem validate_number_invalid (s : String) (h : matchesNumber s = false) :
    send_validate_number s = Except.error SendErr.invalidNumber ∧
    password_validate_number s = Except.error PwErr.invalidNumber := by
  constructor <;> simp [send_validate_number, password_validate_number, h]

/-- Witness for C8 at the concrete malformed number `"hello"`. -/
theorem validate_number_invalid_witness :
    send_validate_number "hello" = Except.error SendErr.invalidNumber ∧
    password_validate_number "hello" = Except.error PwErr.invalidNumber :=
  validate_number_invalid "hello" (by decide)

/-! ### Claim C9 -/

/-- C9: for every phone number matching the canonical pattern,
`requestCode` (`AuthOtpSendSMSSerializer`) succeeds, the created record
carries `createdAt = now`, the configured validity interval, and
`authenticated = false`, and the response's `expired_at` is exactly the
record's creation timestamp plus its validity interval rendered through
the `%Y-%m-%d %H:%M:%S` format. -/
theorem sendSMS_expiry (inp : SendInput) (now interval : Nat) (code : String)
    (pk : Nat) (h : matchesNumber inp.number = true) :
    isOkE (sendSMS inp now interval code pk) = true ∧
    ∀ r resp, sendSMS inp now interval code pk = Except.ok (r, resp) →
      resp.expired_at = strftimeYmdHMS (r.timestamp + r.otp_interval) ∧
      r.timestamp = now ∧ r.otp_interval = interval ∧
      r.authenticated = false := by
  constructor
  · simp [sendSMS, send_validate_number, h, isOkE]
  · intro r resp heq
    simp only [sendSMS, send_validate_number, h, if_true, Except.ok.injEq,
      Prod.mk.injEq] at heq
    rw [← heq.1, ← heq.2]
    exact ⟨rfl, rfl, rfl, rfl⟩

/-- Witness for C9 at the concrete number `"010-1234-5678"`. -/
theorem sendSMS_expiry_witness :
    isOkE (sendSMS { number := "010-1234-5678", auth_type := none }
      0 300 "482913" 1) = true :=
  (sendSMS_expiry { number := "010-1234-5678", auth_type := none }
    0 300 "482913" 1 (by decide)).1

/-! ### Claim C3 -/

/-- C3: `SignupSerializer.validate` fails with `invalid_auth_otp_data`
(the spec's `InvalidOtpData`) precisely unless a latest OTP record for
the submitted phone number exists whose consumed code equals the
submitted code under Python string conversion and whose `authenticated`
flag is false. -/
theorem signup_validate_spec (otps : List AuthOtp) (attrs : SignupAttrs) :
    signup_validate otps attrs = Except.error SignupErr.invalidAuthOtpData ↔
      ∀ r, latestFor otps attrs.phone_number = some r →
        ¬(pyStrOfOpt r.otp_register_code = attrs.otp_register_code ∧
          r.authenticated = false) := by
  unfold signup_validate
  cases hl : latestFor otps attrs.phone_number with
  | none => simp
  | some r0 =>
    simp only [forall_eq', Option.some.injEq]
    constructor
    · intro he hcond
      rw [if_pos (by simp [hcond.1, hcond.2])] at he
      exact absurd he (by simp)
    · intro hno
      have hc : ¬((pyStrOfOpt r0.otp_register_code == attrs.otp_register_code
          && r0.authenticated == false) = true) := by
        intro hcond
        simp only [Bool.and_eq_true, beq_iff_eq] at hcond
        exact hno ⟨hcond.1, hcond.2⟩
      rw [if_neg hc]

/-- Witness for C3: with an empty OTP store no latest record exists, so
signup validation raises `invalid_auth_otp_data`. -/
theorem signup_validate_spec_witness :
    signup_validate []
      { email := "e", username := "u", nickname := "n", password := "p",
        phone_number := "010-1234-5678", otp_register_code := "111222" }
      = Except.error SignupErr.invalidAuthOtpData :=
  (signup_validate_spec [] _).mpr (by intro r hr; simp [latestFor] at hr)

/-! ### Claim C1 -/

/-- C1 counterexample: an already-`authenticated` record produced by
the actual flow (its `auth_type` was nulled by the earlier successful
verification) makes a repeat `verifyCode` fail with the
`invalid_auth_type` detail (`AuthTypeMismatch`), not with the
`invalid_code` detail that the taxonomy groups with `AlreadyConsumed`;
no distinct `AlreadyConsumed` error exists in the code. -/
theorem verify_already_auth_counterexample :
    verifyCode
      (some { pk := 1, number := "010-1234-5678", otp_code := "123456",
              auth_type := none, timestamp := 0, otp_interval := 300,
              authenticated := true, otp_register_code := some "123456",
              verified_at := some 10 })
      { number := "010-1234-5678", otp_code := "123456",
        verified_at := none, auth_type := none }
      = Except.error VerifyErr.invalidAuthType ∧
    VerifyErr.invalidAuthType ≠ VerifyErr.invalidCode :=
  ⟨rfl, by decide⟩

/-- C1 (amended): a verification attempt against a record whose
`authenticated` flag is already true never succeeds: when the record's
stored `auth_type` still matches the requested/default one, the call
fails with the `invalid_code` detail (the kind the spec taxonomy labels
`InvalidCode` / `AlreadyConsumed`); otherwise — in particular for
records whose `auth_type` was nulled by the first verification — it
fails with `invalid_auth_type`. -/
theorem verify_already_authenticated (r : AuthOtp) (inp : VerifyInput)
    (h : r.authenticated = true) :
    (∀ res, verifyCode (some r) inp ≠ Except.ok res) ∧
    (r.auth_type = some (inp.auth_type.getD AuthTypeE.email) →
      verifyCode (some r) inp = Except.error VerifyErr.invalidCode) := by
  constructor
  · intro res hok
    obtain ⟨r2, vd, hinst, hrun, hsave⟩ := verifyCode_ok_split _ _ _ hok
    obtain rfl : r = r2 := Option.some.inj hinst
    have hauth := (verify_save_ok _ _ _ hsave).1
    simp [authenticate_code_by_otp_key, h] at hauth
  · intro hA
    have hrun : verify_run_validation (some r) inp = Except.ok
        { number := inp.number, otp_code := inp.otp_code,
          verified_at := inp.verified_at, auth_type := none } := by
      simp [verify_run_validation, verify_validate_auth_type, hA]
    simp [verifyCode, hrun, verify_save, authenticate_code_by_otp_key, h]

/-- Witness for C1 (amended): a record with matching `auth_type` and
`authenticated = true` fails with `invalid_code` even though the
submitted code is the stored one. -/
theorem verify_already_authenticated_witness :
    verifyCode
      (some { pk := 1, number := "010-1234-5678", otp_code := "123456",
              auth_type := some AuthTypeE.email, timestamp := 0,
              otp_interval := 300, authenticated := true,
              otp_register_code := some "123456", verified_at := some 10 })
      { number := "010-1234-5678", otp_code := "123456",
        verified_at := none, auth_type := none }
      = Except.error VerifyErr.invalidCode :=
  (verify_already_authenticated _ _ rfl).2 rfl

/-! ### Claim C2 -/

/-- C2 counterexample: a successful verification does not set the
record's `authenticated` flag — the persisted record still carries
`authenticated = false` (the flag is flipped only later, by signup). -/
theorem verify_success_counterexample :
    verifyCode
      (some { pk := 2, number := "010-1111-2222", otp_code := "654321",
              auth_type := some AuthTypeE.email, timestamp := 0,
              otp_interval := 300, authenticated := false,
              otp_register_code := none, verified_at := none })
      { number := "010-1111-2222", otp_code := "654321",
        verified_at := none, auth_type := none }
      = Except.ok
          { pk := 2, number := "010-1111-2222", otp_code := "654321",
            auth_type := none, timestamp := 0, otp_interval := 300,
            authenticated := false, otp_register_code := some "654321",
            verified_at := none } ∧
    ({ pk := 2, number := "010-1111-2222", otp_code := "654321",
       auth_type := none, timestamp := 0, otp_interval := 300,
       authenticated := false, otp_register_code := some "654321",
       verified_at := none } : AuthOtp).authenticated = false :=
  ⟨rfl, rfl⟩

/-- C2 (amended): when the latest record exists, its `auth_type`
matches the requested/default one, and the submitted code matches the
stored secret (with the record not yet finalized), `verifyCode`
succeeds, and the updated record that is persisted and kept as the
serializer's instance carries `otp_register_code` equal to the
submitted code — while `authenticated` is left unchanged at `false`
(`save` itself returns `None` in the source; the updated record is
exposed via the serializer's instance). -/
theorem verify_success_effects (r : AuthOtp) (inp : VerifyInput)
    (hflag : r.authenticated = false)
    (htype : r.auth_type = some (inp.auth_type.getD AuthTypeE.email))
    (hcode : inp.otp_code = r.otp_code) :
    isOkE (verifyCode (some r) inp) = true ∧
    ∀ res, verifyCode (some r) inp = Except.ok res →
      res.otp_register_code = some inp.otp_code ∧
      res.authenticated = false ∧ res.number = inp.number := by
  have hrun : verify_run_validation (some r) inp = Except.ok
      { number := inp.number, otp_code := inp.otp_code,
        verified_at := inp.verified_at, auth_type := none } := by
    simp [verify_run_validation, verify_validate_auth_type, htype]
  have hall : verifyCode (some r) inp = Except.ok { r with
      number := inp.number
      verified_at := match inp.verified_at with
        | some t => some t
        | none => r.verified_at
      auth_type := none
      otp_register_code := some inp.otp_code } := by
    simp [verifyCode, hrun, verify_save, authenticate_code_by_otp_key,
      hflag, hcode]
  refine ⟨by rw [hall]; rfl, ?_⟩
  intro res hres
  rw [hall] at hres
  rw [← Except.ok.inj hres]
  exact ⟨rfl, hflag, rfl⟩

/-- Witness for C2 (amended) at a concrete eligible record. -/
theorem verify_success_effects_witness :
    isOkE (verifyCode
      (some { pk := 2, number := "010-1111-2222", otp_code := "654321",
              auth_type := some AuthTypeE.email, timestamp := 0,
              otp_interval := 300, authenticated := false,
              otp_register_code := none, verified_at := none })
      { number := "010-1111-2222", otp_code := "654321",
        verified_at := none, auth_type := none }) = true :=
  (verify_success_effects _ _ rfl rfl rfl).1

/-! ### Claim C10 -/

/-- C10: every successful `verifyCode` overwrites the stored record's
`auth_type` with `None` — `validate_auth_type` returns no value, so
the update applied on success writes a null `auth_type` back alongside
the consumed code; the record's original `auth_type` is not
preserved. -/
theorem verify_nulls_auth_type (inst : Option AuthOtp) (inp : VerifyInput)
    (res : AuthOtp) (h : verifyCode inst inp = Except.ok res) :
    res.auth_type = none ∧ res.otp_register_code = some inp.otp_code := by
  obtain ⟨r, vd, hinst, hrun, hsave⟩ := verifyCode_ok_split _ _ _ h
  obtain ⟨hvd1, hvd2⟩ := verify_run_validation_ok _ _ _ hrun
  obtain ⟨-, hs1, hs2, -⟩ := verify_save_ok _ _ _ hsave
  exact ⟨hs1.trans hvd1, by rw [hs2, hvd2]⟩

/-- Witness for C10 at a concrete successful verification: the updated
record's `auth_type` is `none` although the stored record's was
`phone`. -/
theorem verify_nulls_auth_type_witness :
    ({ pk := 3, number := "070-111-2222", otp_code := "999000",
       auth_type := none, timestamp := 50, otp_interval := 600,
       authenticated := false, otp_register_code := some "999000",
       verified_at := some 77 } : AuthOtp).auth_type = none ∧
    ({ pk := 3, number := "070-111-2222", otp_code := "999000",
       auth_type := none, timestamp := 50, otp_interval := 600,
       authenticated := false, otp_register_code := some "999000",
       verified_at := some 77 } : AuthOtp).otp_register_code = some "999000" :=
  verify_nulls_auth_type
    (some { pk := 3, number := "070-111-2222", otp_code := "999000",
            auth_type := some AuthTypeE.phone, timestamp := 50,
            otp_interval := 600, authenticated := false,
            otp_register_code := none, verified_at := none })
    { number := "070-111-2222", otp_code := "999000",
      verified_at := some 77, auth_type := some AuthTypeE.phone }
    _ rfl

/-! ### Claim C4 -/

/-- A `signup_save` that fails leaves the database exactly as the
caller had it (the transaction rolled back). -/
theorem signup_save_rollback (hash : String → String) (freshId : Nat) (db : DB)
    (attrs : SignupAttrs) (auth_otp : AuthOtp) (db2 : DB) (e : SignupErr)
    (h : signup_save hash freshId db attrs auth_otp = (db2, Except.error e)) :
    db2 = db := by
  unfold signup_save at h
  split at h
  · simp only [Prod.mk.injEq] at h
    exact h.1.symm
  · simp only [Prod.mk.injEq] at h
    exact absurd h.2 (by simp)

/-- A `signup_save` that succeeds appended the created account to the
user store and wrote the flag-flipped record over its stored row. -/
theorem signup_save_ok_effects (hash : String → String) (freshId : Nat)
    (db : DB) (attrs : SignupAttrs) (auth_otp : AuthOtp) (db2 : DB) (u : User)
    (h : signup_save hash freshId db attrs auth_otp = (db2, Except.ok u)) :
    db2.users = db.users ++ [u] ∧
    db2.otps = saveOtp db.otps { auth_otp with authenticated := true } := by
  unfold signup_save at h
  split at h
  · simp only [Prod.mk.injEq] at h
    exact absurd h.2 (by simp)
  · rename_i users2 u0 hc
    have husers := create_user_ok _ _ _ _ _ _ hc
    simp only [Prod.mk.injEq] at h
    obtain ⟨hdb2, hu⟩ := h
    obtain rfl : u0 = u := Except.ok.inj hu
    rw [← hdb2]
    exact ⟨husers, rfl⟩

/-- C4: signup's two effects are atomic. On any failure the returned
database state is exactly the caller's (the transaction rolled back, so
no Account exists without the flag flip and no flag flips without the
Account); on success the created account is in the store and the
matched OTP record is stored with `authenticated = true` — both effects
commit together or neither does. -/
theorem signup_atomic (hash : String → String) (freshId : Nat) (db : DB)
    (attrs : SignupAttrs) :
    (∀ db2 e, signup hash freshId db attrs = (db2, Except.error e) → db2 = db) ∧
    (∀ db2 u, signup hash freshId db attrs = (db2, Except.ok u) →
      u ∈ db2.users ∧
      ∃ r0, r0 ∈ db2.otps ∧ r0.authenticated = true ∧
        r0.number = attrs.phone_number) := by
  constructor
  · intro db2 e h
    unfold signup at h
    split at h
    · simp only [Prod.mk.injEq] at h
      exact h.1.symm
    · exact signup_save_rollback _ _ _ _ _ _ _ h
  · intro db2 u h
    unfold signup at h
    split at h
    · simp only [Prod.mk.injEq] at h
      exact absurd h.2 (by simp)
    · rename_i a2 rA hv
      obtain ⟨hlatest, -⟩ := signup_validate_ok _ _ _ _ hv
      obtain ⟨husers, hotps⟩ := signup_save_ok_effects _ _ _ _ _ _ _ h
      obtain ⟨hmem, hnum⟩ := latestFor_mem_number _ _ _ hlatest
      refine ⟨?_, { rA with authenticated := true }, ?_, rfl, hnum⟩
      · rw [husers]
        exact List.mem_append_right _ (List.mem_singleton_self u)
      · rw [hotps]
        exact mem_saveOtp_self _ _ rA hmem rfl

/-- Witness for C4: a concrete signup that succeeds; the created
account is in the resulting user store. -/
theorem signup_atomic_witness :
    ({ id := 77, email := "e", username := "u", nickname := "n",
       password := "p", phone_number := "010-1234-5678",
       otp_register_code := some "111222", auth_otp := none,
       is_staff := false, last_login := none, last_login_datetime := none,
       last_login_type := none } : User) ∈
    ({ otps := [{ pk := 9, number := "010-1234-5678", otp_code := "111222",
                  auth_type := some AuthTypeE.email, timestamp := 0,
                  otp_interval := 300, authenticated := true,
                  otp_register_code := some "111222", verified_at := none }],
       users := [{ id := 77, email := "e", username := "u", nickname := "n",
                   password := "p", phone_number := "010-1234-5678",
                   otp_register_code := some "111222", auth_otp := none,
                   is_staff := false, last_login := none,
                   last_login_datetime := none,
                   last_login_type := none }] } : DB).users :=
  ((signup_atomic (fun s => s) 77
    { otps := [{ pk := 9, number := "010-1234-5678", otp_code := "111222",
                 auth_type := some AuthTypeE.email, timestamp := 0,
                 otp_interval := 300, authenticated := false,
                 otp_register_code := some "111222", verified_at := none }],
      users := [] }
    { email := "e", username := "u", nickname := "n", password := "p",
      phone_number := "010-1234-5678",
      otp_register_code := "111222" }).2 _ _ rfl).1

/-! ### Claim C5 -/

/-- C5 (code bug): whenever a latest OTP record exists for a
well-formed number, `PasswordSerializer.validate` evaluates
`attrs["otp_register_code"]` — a key the serializer never produces,
since its declared fields are `number`, `otp_code` and `new_passwd` —
so the call dies with an uncaught `KeyError` instead of performing the
OTP-eligibility check or raising `invalid_auth_otp_data`. Evaluated
here at a concrete failing input. -/
theorem password_reset_keyerror :
    password_run
      [{ pk := 9, number := "010-1234-5678", otp_code := "111222",
         auth_type := some AuthTypeE.email, timestamp := 0,
         otp_interval := 300, authenticated := false,
         otp_register_code := some "111222", verified_at := none }]
      [] "010-1234-5678" "111222" "newpw"
      = Except.error (PwErr.keyError "otp_register_code") :=
  rfl

/-! ### Claim C6 -/

/-- C6 counterexample: with the update-login setting enabled, a
successful login using the `phone_number` strategy persists
`last_login_type = email` — the field default — not the strategy that
was actually used. -/
theorem login_stamp_counterexample :
    login_validate eqPassword fixedTokenPair true 100
      [{ id := 5, email := "a@b.c", username := "usr", nickname := "nick",
         password := "pw", phone_number := "010-1111-2222",
         otp_register_code := none, auth_otp := none, is_staff := false,
         last_login := none, last_login_datetime := none,
         last_login_type := none }]
      { email := "a@b.c", phone_number := "010-1111-2222",
        password := "pw", login_type := some LoginTypeE.phone_number }
      = Except.ok
          ([{ id := 5, email := "a@b.c", username := "usr",
              nickname := "nick", password := "pw",
              phone_number := "010-1111-2222", otp_register_code := none,
              auth_otp := none, is_staff := false, last_login := none,
              last_login_datetime := some 100,
              last_login_type := some LoginTypeE.email }],
           { user := { id := 5, email := "a@b.c", username := "usr",
                       nickname := "nick", phone_number := "010-1111-2222",
                       is_staff := false, last_login := none },
             access := "acc", refresh := "ref" }) ∧
    LoginTypeE.email ≠ LoginTypeE.phone_number :=
  ⟨rfl, by decide⟩

/-- C6 (amended): when the resolved strategy matches exactly one
account and the password checks out, login succeeds; the login stamp is
persisted only when the update-login setting is enabled, and it is a
partial update writing exactly `last_login_datetime := now` and
`last_login_type := email` (the field default, regardless of the
strategy used); with the setting disabled the store is untouched. -/
theorem login_stamp_amended (check_password : String → String → Bool)
    (issue_token : User → String × String) (now : Nat) (users : List User)
    (attrs : LoginAttrs) (u : User)
    (hu : login_lookup (attrs.login_type.getD LoginTypeE.email) users attrs = [u])
    (hpw : check_password attrs.password u.password = true) :
    login_validate check_password issue_token true now users attrs =
      Except.ok (applyLoginStamp users u now,
        { user := userProjection u
          access := (issue_token u).1
          refresh := (issue_token u).2 }) ∧
    login_validate check_password issue_token false now users attrs =
      Except.ok (users,
        { user := userProjection u
          access := (issue_token u).1
          refresh := (issue_token u).2 }) := by
  constructor <;> simp [login_validate, hu, hpw]

/-- Witness for C6 (amended) at a concrete account and request. -/
theorem login_stamp_amended_witness :
    login_validate eqPassword fixedTokenPair true 100
      [{ id := 5, email := "a@b.c", username := "usr", nickname := "nick",
         password := "pw", phone_number := "010-1111-2222",
         otp_register_code := none, auth_otp := none, is_staff := false,
         last_login := none, last_login_datetime := none,
         last_login_type := none }]
      { email := "a@b.c", phone_number := "010-1111-2222",
        password := "pw", login_type := none }
      = Except.ok
          (applyLoginStamp
            [{ id := 5, email := "a@b.c", username := "usr",
               nickname := "nick", password := "pw",
               phone_number := "010-1111-2222", otp_register_code := none,
               auth_otp := none, is_staff := false, last_login := none,
               last_login_datetime := none, last_login_type := none }]
            { id := 5, email := "a@b.c", username := "usr",
              nickname := "nick", password := "pw",
              phone_number := "010-1111-2222", otp_register_code := none,
              auth_otp := none, is_staff := false, last_login := none,
              last_login_datetime := none, last_login_type := none }
            100,
           { user := { id := 5, email := "a@b.c", username := "usr",
                       nickname := "nick", phone_number := "010-1111-2222",
                       is_staff := false, last_login := none },
             access := "acc", refresh := "ref" }) :=
  (login_stamp_amended eqPassword fixedTokenPair 100
    [{ id := 5, email := "a@b.c", username := "usr", nickname := "nick",
       password := "pw", phone_number := "010-1111-2222",
       otp_register_code := none, auth_otp := none, is_staff := false,
       last_login := none, last_login_datetime := none,
       last_login_type := none }]
    { email := "a@b.c", phone_number := "010-1111-2222",
      password := "pw", login_type := none }
    { id := 5, email := "a@b.c", username := "usr", nickname := "nick",
      password := "pw", phone_number := "010-1111-2222",
      otp_register_code := none, auth_otp := none, is_staff := false,
      last_login := none, last_login_datetime := none,
      last_login_type := none }
    rfl rfl).1

/-! ### Claim C7 -/

/-- C7 counterexample: the serialized signup response for a concrete
onboarded account has the keys `id`, `email`, `username`, `nickname`,
`password`, `phone_number`, `auth_otp` — not exactly the five-field
projection the claim states (`password` and `auth_otp` are neither
write-only nor popped). -/
theorem signup_repr_counterexample :
    (signup_to_representation
      { id := 77, email := "e", username := "u", nickname := "n",
        password := "p", phone_number := "010-1234-5678",
        otp_register_code := some "111222", auth_otp := none,
        is_staff := false, last_login := none, last_login_datetime := none,
        last_login_type := none }).map Prod.fst
      = ["id", "email", "username", "nickname", "password", "phone_number",
         "auth_otp"] ∧
    (["id", "email", "username", "nickname", "password", "phone_number",
      "auth_otp"] : List String)
      ≠ ["id", "email", "username", "nickname", "phone_number"] :=
  ⟨rfl, by decide⟩

/-- C7 (amended): for every account, the serialized signup response has
exactly the keys `id`, `email`, `username`, `nickname`, `password`,
`phone_number`, `auth_otp`; the top-level `otp_register_code` key — the
OTP code used — is always removed. -/
theorem signup_repr_keys (u : User) :
    (signup_to_representation u).map Prod.fst
      = ["id", "email", "username", "nickname", "password", "phone_number",
         "auth_otp"] ∧
    "otp_register_code" ∉ (signup_to_representation u).map Prod.fst := by
  refine ⟨rfl, ?_⟩
  intro hmem
  rw [show (signup_to_representation u).map Prod.fst
    = ["id", "email", "username", "nickname", "password", "phone_number",
       "auth_otp"] from rfl] at hmem
  simp at hmem

end SimpleAuth
